import Mathlib

/-!
# Verification of the trading-platform frontend analysis lifecycle

Shallow embedding of the client-side analysis lifecycle state machine of the
`trading-platform` frontend:

* `src/trading-platform/frontend/src/store/useStore.ts` — the zustand store
  (state shape, `setCurrentAnalysis`, `addToHistory`, `updateAnalysisPhase`,
  flag setters, `resetSelection`);
* `src/trading-platform/frontend/src/hooks/useWebSocket.ts` — `handleMessage`,
  the WebSocket event dispatcher;
* `src/trading-platform/frontend/src/App.tsx` — `handleStartAnalysis`
  (submission gateway, initial snapshot, poll-loop body) and the
  results-display gate in `renderAnalysisFlow`;
* `AnalysisProgress.tsx` — `handleStopAnalysis` (cancel) and the progress
  percentage computation.

JavaScript objects that travel through `any`-typed payloads are modelled with
`Option` fields (a present key is `some`, an absent key is `none`); the JS
spread merge `\x7b ...old, ...upd \x7d` is field-wise `upd.f <|> old.f`.
-/

/-- Status of a single phase (`AnalysisPhase.status` in `types/index.ts`). -/
inductive PhaseStatus where
  | pending
  | running
  | completed
  | error
deriving DecidableEq, Repr

/-- Status of a whole analysis (`AnalysisResult.status` in `types/index.ts`). -/
inductive AnalysisStatus where
  | pending
  | running
  | completed
  | error
  | cancelled
deriving DecidableEq, Repr

/-- One phase entry. Phase payloads reach the store through `any`-typed
WebSocket data and are stored raw (`updatedPhases.push(phaseUpdate)`), so every
field is optional here: a JS key that is absent is `none`. -/
structure AnalysisPhase where
  phase : Option String
  agent : Option String
  status : Option PhaseStatus
  content : Option String
  timestamp : Option String
deriving DecidableEq, Repr

/-- `AnalysisResult` from `types/index.ts`. `confidence_score` (a JS number
used as an integer percentage in the observed payloads) is an `Int`. -/
structure AnalysisResult where
  id : String
  stock_symbol : String
  analysis_type : String
  workflow_type : String
  status : AnalysisStatus
  phases : List AnalysisPhase
  summary : Option String
  recommendation : Option String
  confidence_score : Option Int
  created_at : String
  completed_at : Option String
deriving DecidableEq, Repr

/-- `Stock` from `types/index.ts` (price figures kept as rationals). -/
structure Stock where
  symbol : String
  name : String
  price : Option ℚ
  change : Option ℚ
  changePercent : Option ℚ
  marketCap : Option String
  sector : Option String
deriving DecidableEq

/-- `AnalysisType` from `types/index.ts`. -/
structure AnalysisType where
  id : String
  name : String
  description : String
  icon : String
deriving DecidableEq, Repr

/-- The store state from `useStore.ts` (`AppState`). -/
structure AppState where
  selectedStock : Option Stock
  selectedAnalysisType : Option AnalysisType
  selectedWorkflow : String
  currentAnalysis : Option AnalysisResult
  analysisHistory : List AnalysisResult
  isAnalysisRunning : Bool
  websocketConnected : Bool
  isCancelling : Bool
deriving DecidableEq

/-- The initial store state (the literal defaults in `useStore.ts`). -/
def initialState : AppState :=
  { selectedStock := none
    selectedAnalysisType := none
    selectedWorkflow := "13-agent"
    currentAnalysis := none
    analysisHistory := []
    isAnalysisRunning := false
    websocketConnected := false
    isCancelling := false }

/-- `setSelectedStock` from `useStore.ts`. -/
def setSelectedStock (stock : Option Stock) (s : AppState) : AppState :=
  { s with selectedStock := stock }

/-- `setSelectedAnalysisType` from `useStore.ts`. -/
def setSelectedAnalysisType (type : Option AnalysisType) (s : AppState) : AppState :=
  { s with selectedAnalysisType := type }

/-- `setSelectedWorkflow` from `useStore.ts`. -/
def setSelectedWorkflow (workflow : String) (s : AppState) : AppState :=
  { s with selectedWorkflow := workflow }

/-- `setCurrentAnalysis` from `useStore.ts`: unconditionally replaces the
tracked analysis. -/
def setCurrentAnalysis (analysis : Option AnalysisResult) (s : AppState) : AppState :=
  { s with currentAnalysis := analysis }

/-- `addToHistory` from `useStore.ts`:
`analysisHistory: [analysis, ...state.analysisHistory.slice(0, 9)]`. -/
def addToHistory (analysis : AnalysisResult) (s : AppState) : AppState :=
  { s with analysisHistory := analysis :: s.analysisHistory.take 9 }

/-- `setAnalysisRunning` from `useStore.ts`. -/
def setAnalysisRunning (running : Bool) (s : AppState) : AppState :=
  { s with isAnalysisRunning := running }

/-- `setWebsocketConnected` from `useStore.ts`. -/
def setWebsocketConnected (connected : Bool) (s : AppState) : AppState :=
  { s with websocketConnected := connected }

/-- `setCancelling` from `useStore.ts`. -/
def setCancelling (cancelling : Bool) (s : AppState) : AppState :=
  { s with isCancelling := cancelling }

/-- `resetSelection` from `useStore.ts`. -/
def resetSelection (s : AppState) : AppState :=
  { s with selectedStock := none
           selectedAnalysisType := none
           currentAnalysis := none
           isAnalysisRunning := false
           isCancelling := false }

/-- The JS spread merge `\x7b ...old, ...upd \x7d` on phase objects
(`useStore.ts` line 63): keys present in the update overwrite, absent keys
keep the old value. -/
def mergePhase (old upd : AnalysisPhase) : AnalysisPhase :=
  { phase := upd.phase <|> old.phase
    agent := upd.agent <|> old.agent
    status := upd.status <|> old.status
    content := upd.content <|> old.content
    timestamp := upd.timestamp <|> old.timestamp }

/-- The phase-reconciliation loop of `updateAnalysisPhase` (`useStore.ts`
lines 59-66): `findIndex(p => p.phase === phaseUpdate.phase)`, merge in place
at the first match, otherwise `push(phaseUpdate)` at the end. (JS `===` on
two `undefined` names is true, hence equality of `Option String`.) -/
def updatePhases (phaseUpdate : AnalysisPhase) : List AnalysisPhase → List AnalysisPhase
  | [] => [phaseUpdate]
  | p :: ps =>
      if p.phase = phaseUpdate.phase then
        mergePhase p phaseUpdate :: ps
      else
        p :: updatePhases phaseUpdate ps

/-- `updateAnalysisPhase` from `useStore.ts`: guarded by
`state.currentAnalysis?.id === analysisId`; a missing or mismatched analysis
returns the state unchanged. -/
def updateAnalysisPhase (analysisId : String) (phaseUpdate : AnalysisPhase)
    (s : AppState) : AppState :=
  match s.currentAnalysis with
  | some analysis =>
      if analysis.id = analysisId then
        let updated : AnalysisResult :=
          { analysis with phases := updatePhases phaseUpdate analysis.phases }
        { s with currentAnalysis := some updated }
      else s
  | none => s

/-- A tagged WebSocket message (`WebSocketMessage` in `types/index.ts`),
as consumed by `handleMessage` in `useWebSocket.ts`: `phase_update` carries a
phase payload, `analysis_complete` a full snapshot; the payloads of
`analysis_cancelled` and `error` are only logged. -/
inductive WsMessage where
  | phase_update (analysis_id : String) (data : AnalysisPhase)
  | analysis_complete (analysis_id : String) (data : AnalysisResult)
  | analysis_cancelled (analysis_id : String)
  | error (analysis_id : String) (detail : String)
deriving DecidableEq

/-- `handleMessage` from `useWebSocket.ts`. `analysis_complete`
unconditionally runs `setCurrentAnalysis(data)`, `addToHistory(data)`,
`setAnalysisRunning(false)`, `setCancelling(false)` — there is no terminal
or job-id guard. `analysis_cancelled` and `error` only log and clear the two
flags; they never touch `currentAnalysis`. -/
def handleMessage (message : WsMessage) (s : AppState) : AppState :=
  match message with
  | .phase_update analysis_id data => updateAnalysisPhase analysis_id data s
  | .analysis_complete _ data =>
      setCancelling false (setAnalysisRunning false
        (addToHistory data (setCurrentAnalysis (some data) s)))
  | .analysis_cancelled _ => setCancelling false (setAnalysisRunning false s)
  | .error _ _ => setCancelling false (setAnalysisRunning false s)

/-- The body of `pollForUpdates` in `App.tsx` (lines 73-91), applied to one
successfully fetched snapshot: `setCurrentAnalysis(analysisStatus)` always;
if the fetched status is terminal, `setAnalysisRunning(false)` and — for
`completed` only — `addToHistory(analysisStatus)`. -/
def applyPollSnapshot (analysisStatus : AnalysisResult) (s : AppState) : AppState :=
  if analysisStatus.status = .completed ∨ analysisStatus.status = .cancelled ∨
      analysisStatus.status = .error then
    if analysisStatus.status = .completed then
      addToHistory analysisStatus
        (setAnalysisRunning false (setCurrentAnalysis (some analysisStatus) s))
    else
      setAnalysisRunning false (setCurrentAnalysis (some analysisStatus) s)
  else setCurrentAnalysis (some analysisStatus) s

/-- The initial analysis snapshot built in `handleStartAnalysis`
(`App.tsx` lines 59-67). Note the source sets `status: 'running'`,
and `created_at: new Date().toISOString()` — the local submission time. -/
def mkInitialAnalysis (analysis_id stock_symbol analysis_type workflow_type
    now : String) : AnalysisResult :=
  { id := analysis_id
    stock_symbol := stock_symbol
    analysis_type := analysis_type
    workflow_type := workflow_type
    status := .running
    phases := []
    summary := none
    recommendation := none
    confidence_score := none
    created_at := now
    completed_at := none }

/-- Result of one run of `handleStartAnalysis`: the produced store state and
whether the network request `api.startAnalysis` was issued at all. -/
structure SubmitResult where
  state : AppState
  networkCalled : Bool
deriving DecidableEq

/-- `handleStartAnalysis` from `App.tsx` (lines 46-100). The only validation
is `if (!selectedStock || !selectedAnalysisType) return` — a silent early
return (the store has no user-facing error field, nothing is surfaced and no
exception is thrown). Otherwise `setAnalysisRunning(true)` and the network
call are issued; `network = some id` models a successful
`api.startAnalysis` response, `none` a thrown transport error, which is
caught, logged to the console and answered by `setAnalysisRunning(false)`. -/
def handleStartAnalysis (network : Option String) (now : String)
    (s : AppState) : SubmitResult :=
  match s.selectedStock, s.selectedAnalysisType with
  | some stock, some atype =>
      match network with
      | some analysisId =>
          { state := setCurrentAnalysis
              (some (mkInitialAnalysis analysisId stock.symbol atype.id
                s.selectedWorkflow now))
              (setAnalysisRunning true s)
            networkCalled := true }
      | none =>
          { state := setAnalysisRunning false (setAnalysisRunning true s)
            networkCalled := true }
  | _, _ => { state := s, networkCalled := false }

/-- `handleStopAnalysis` from `AnalysisProgress.tsx` (lines 57-75). Guard:
`if (!currentAnalysis?.id || isCancelling) return` (an empty id string is
falsy in JS). On a successful cancel request the analysis status is set to
`cancelled` and the running flag cleared; on a thrown transport error only
the console is written. Either way the `finally` block clears
`isCancelling`. -/
def handleStopAnalysis (cancelSucceeded : Bool) (s : AppState) : AppState :=
  match s.currentAnalysis with
  | none => s
  | some analysis =>
      if analysis.id = "" ∨ s.isCancelling = true then s
      else if cancelSucceeded then
        setCancelling false (setAnalysisRunning false
          (setCurrentAnalysis (some { analysis with status := .cancelled })
            (setCancelling true s)))
      else
        setCancelling false (setCancelling true s)

/-- `completedPhases` from `AnalysisProgress.tsx` line 107:
`phases.filter(p => p.status === 'completed').length`. -/
def completedPhases (phases : List AnalysisPhase) : Nat :=
  (phases.filter (fun p => decide (p.status = some PhaseStatus.completed))).length

/-- `expectedTotalPhases` from `AnalysisProgress.tsx` lines 110-111:
16 for `13-agent`, 9 for `6-agent`, 10 otherwise. -/
def expectedTotalPhases (selectedWorkflow : String) : Nat :=
  if selectedWorkflow = "13-agent" then 16
  else if selectedWorkflow = "6-agent" then 9
  else 10

/-- `totalPhases` from `AnalysisProgress.tsx` line 114:
`Math.max(expectedTotalPhases, phases.length)`. -/
def totalPhases (selectedWorkflow : String) (phases : List AnalysisPhase) : Nat :=
  max (expectedTotalPhases selectedWorkflow) phases.length

/-- `progressPercentage` from `AnalysisProgress.tsx` line 115:
`totalPhases > 0 ? (completedPhases / totalPhases) * 100 : 0`, as an exact
rational. -/
def progressPercentage (selectedWorkflow : String)
    (phases : List AnalysisPhase) : ℚ :=
  if totalPhases selectedWorkflow phases > 0 then
    (completedPhases phases : ℚ) / (totalPhases selectedWorkflow phases : ℚ) * 100
  else 0

/-- The filter in `renderAnalysisFlow` (`App.tsx` lines 287-292): completed
phases whose agent is none of `System`, `7-Agent Team`, `13-Agent Team`.
(JS `!==` against a string is true for an `undefined` agent.) -/
def agentPhases (phases : List AnalysisPhase) : List AnalysisPhase :=
  phases.filter (fun p =>
    decide (p.status = some PhaseStatus.completed) &&
    decide (p.agent ≠ some "System") &&
    decide (p.agent ≠ some "7-Agent Team") &&
    decide (p.agent ≠ some "13-Agent Team"))

/-- `expectedAgents` from `App.tsx` line 293:
`selectedWorkflow === '6-agent' ? 3 : selectedWorkflow === '7-agent' ? 3 : 5`. -/
def expectedAgents (selectedWorkflow : String) : Nat :=
  if selectedWorkflow = "6-agent" then 3
  else if selectedWorkflow = "7-agent" then 3
  else 5

/-- The display gate for `AnalysisResults` in `renderAnalysisFlow`
(`App.tsx` lines 284-295): status is `completed` and the number of completed
non-system agent phases reaches the per-workflow threshold. -/
def showAnalysisResults (analysis : AnalysisResult)
    (selectedWorkflow : String) : Bool :=
  decide (analysis.status = AnalysisStatus.completed) &&
  decide (expectedAgents selectedWorkflow ≤ (agentPhases analysis.phases).length)

/-- A terminal analysis status (spec §3: completed, error, cancelled). -/
def isTerminal (st : AnalysisStatus) : Bool :=
  match st with
  | .completed => true
  | .error => true
  | .cancelled => true
  | _ => false

/-- One store transition: any of the store's setters or of the composite
event handlers embedded above. -/
inductive Step : AppState → AppState → Prop where
  | selStock (stock : Option Stock) (s : AppState) : Step s (setSelectedStock stock s)
  | selType (type : Option AnalysisType) (s : AppState) :
      Step s (setSelectedAnalysisType type s)
  | selWorkflow (w : String) (s : AppState) : Step s (setSelectedWorkflow w s)
  | setCur (a : Option AnalysisResult) (s : AppState) : Step s (setCurrentAnalysis a s)
  | addHist (a : AnalysisResult) (s : AppState) : Step s (addToHistory a s)
  | setRun (b : Bool) (s : AppState) : Step s (setAnalysisRunning b s)
  | setWs (b : Bool) (s : AppState) : Step s (setWebsocketConnected b s)
  | setCan (b : Bool) (s : AppState) : Step s (setCancelling b s)
  | updPhase (analysisId : String) (u : AnalysisPhase) (s : AppState) :
      Step s (updateAnalysisPhase analysisId u s)
  | reset (s : AppState) : Step s (resetSelection s)
  | ws (m : WsMessage) (s : AppState) : Step s (handleMessage m s)
  | poll (snap : AnalysisResult) (s : AppState) : Step s (applyPollSnapshot snap s)
  | stop (ok : Bool) (s : AppState) : Step s (handleStopAnalysis ok s)
  | start (network : Option String) (now : String) (s : AppState) :
      Step s (handleStartAnalysis network now s).state

/-- A store state reachable from the initial state through the embedded
operations. -/
inductive Reachable : AppState → Prop where
  | init : Reachable initialState
  | step {s s' : AppState} : Reachable s → Step s s' → Reachable s'

/-! ## Concrete fixtures used by witnesses and counterexamples -/

/-- Fixture: a phase record with the given name, agent and status and no
content or timestamp. -/
def mkPhase (name agent : Option String) (status : Option PhaseStatus) :
    AnalysisPhase :=
  { phase := name, agent := agent, status := status
    content := none, timestamp := none }

/-- Fixture: an analysis snapshot with the given id, status and phases. -/
def sampleJob (id : String) (status : AnalysisStatus)
    (phases : List AnalysisPhase) : AnalysisResult :=
  { id := id
    stock_symbol := "AAPL"
    analysis_type := "buying"
    workflow_type := "7-agent"
    status := status
    phases := phases
    summary := none
    recommendation := none
    confidence_score := none
    created_at := "2024-01-01T00:00:00Z"
    completed_at := none }

/-- Fixture: a store state currently tracking the given analysis. -/
def trackingState (a : AnalysisResult) : AppState :=
  { initialState with currentAnalysis := some a, isAnalysisRunning := true }

/-! ## Helper lemmas -/

/-- `updatePhases` merges in place at the first phase whose name matches the
update's name, leaving everything else untouched. -/
theorem updatePhases_first_match (u : AnalysisPhase) (l1 : List AnalysisPhase)
    (p : AnalysisPhase) (l2 : List AnalysisPhase)
    (hmiss : ∀ q ∈ l1, q.phase ≠ u.phase) (hmatch : p.phase = u.phase) :
    updatePhases u (l1 ++ p :: l2) = l1 ++ mergePhase p u :: l2 := by
  induction l1 with
  | nil => simp [updatePhases, hmatch]
  | cons q l1 ih =>
      have hq : q.phase ≠ u.phase := hmiss q (List.mem_cons_self q l1)
      simp only [List.cons_append, updatePhases, if_neg hq]
      exact congrArg (fun t => q :: t)
        (ih (fun r hr => hmiss r (List.mem_cons_of_mem q hr)))

/-- `updatePhases` appends the raw update at the end when no phase name
matches. -/
theorem updatePhases_miss (u : AnalysisPhase) (l : List AnalysisPhase)
    (h : ∀ p ∈ l, p.phase ≠ u.phase) :
    updatePhases u l = l ++ [u] := by
  induction l with
  | nil => simp [updatePhases]
  | cons p l ih =>
      have hp : p.phase ≠ u.phase := h p (List.mem_cons_self p l)
      simp only [updatePhases, if_neg hp, List.cons_append]
      exact congrArg (fun t => p :: t)
        (ih (fun r hr => h r (List.mem_cons_of_mem p hr)))

/-- `updatePhases` preserves the list length whenever some phase name
matches the update's name. -/
theorem updatePhases_length (u : AnalysisPhase) (l : List AnalysisPhase)
    (h : ∃ p ∈ l, p.phase = u.phase) :
    (updatePhases u l).length = l.length := by
  induction l with
  | nil => simp at h
  | cons p l ih =>
      by_cases hp : p.phase = u.phase
      · simp [updatePhases, hp]
      · rcases h with ⟨q, hq, hqe⟩
        rcases List.mem_cons.mp hq with rfl | hq2
        · exact absurd hqe hp
        · simp [updatePhases, if_neg hp, ih ⟨q, hq2, hqe⟩]

/-- `updateAnalysisPhase` never changes the history. -/
theorem updateAnalysisPhase_history (analysisId : String) (u : AnalysisPhase)
    (s : AppState) :
    (updateAnalysisPhase analysisId u s).analysisHistory = s.analysisHistory := by
  unfold updateAnalysisPhase
  cases s.currentAnalysis with
  | none => rfl
  | some a => by_cases h : a.id = analysisId <;> simp [h]

/-- `updateAnalysisPhase` never changes the tracked analysis's status. -/
theorem updateAnalysisPhase_status (analysisId : String) (u : AnalysisPhase)
    (s : AppState) (a : AnalysisResult) (h : s.currentAnalysis = some a) :
    (updateAnalysisPhase analysisId u s).currentAnalysis.map AnalysisResult.status =
      some a.status := by
  unfold updateAnalysisPhase
  rw [h]
  by_cases hid : a.id = analysisId <;> simp [hid, h]

/-- `addToHistory` keeps at most the ten most recent entries. -/
theorem addToHistory_length_le (a : AnalysisResult) (s : AppState) :
    (addToHistory a s).analysisHistory.length ≤ 10 := by
  simp only [addToHistory, List.length_cons, List.length_take]
  omega

/-- `handleStopAnalysis` never changes the history. -/
theorem handleStopAnalysis_history (ok : Bool) (s : AppState) :
    (handleStopAnalysis ok s).analysisHistory = s.analysisHistory := by
  unfold handleStopAnalysis
  cases s.currentAnalysis with
  | none => rfl
  | some a =>
      dsimp only
      split
      · rfl
      · split <;> rfl

/-- `handleStartAnalysis` never changes the history. -/
theorem handleStartAnalysis_history (network : Option String) (now : String)
    (s : AppState) :
    (handleStartAnalysis network now s).state.analysisHistory = s.analysisHistory := by
  unfold handleStartAnalysis
  cases s.selectedStock with
  | none => rfl
  | some stock =>
      cases s.selectedAnalysisType with
      | none => rfl
      | some atype => cases network <;> rfl

/-- `handleMessage` keeps the history bound of ten entries. -/
theorem handleMessage_history_le (m : WsMessage) (s : AppState)
    (h : s.analysisHistory.length ≤ 10) :
    (handleMessage m s).analysisHistory.length ≤ 10 := by
  cases m with
  | phase_update analysis_id data =>
      show (updateAnalysisPhase analysis_id data s).analysisHistory.length ≤ 10
      rw [updateAnalysisPhase_history]
      exact h
  | analysis_complete analysis_id data =>
      exact addToHistory_length_le data (setCurrentAnalysis (some data) s)
  | analysis_cancelled analysis_id => exact h
  | error analysis_id detail => exact h

/-- `applyPollSnapshot` keeps the history bound of ten entries. -/
theorem applyPollSnapshot_history_le (snap : AnalysisResult) (s : AppState)
    (h : s.analysisHistory.length ≤ 10) :
    (applyPollSnapshot snap s).analysisHistory.length ≤ 10 := by
  unfold applyPollSnapshot
  split
  · split
    · exact addToHistory_length_le snap _
    · exact h
  · exact h

/-- Every store transition keeps the history bound of ten entries. -/
theorem step_history_le {s s' : AppState} (st : Step s s')
    (h : s.analysisHistory.length ≤ 10) : s'.analysisHistory.length ≤ 10 := by
  cases st with
  | selStock stock s => exact h
  | selType type s => exact h
  | selWorkflow w s => exact h
  | setCur a s => exact h
  | addHist a s => exact addToHistory_length_le a s
  | setRun b s => exact h
  | setWs b s => exact h
  | setCan b s => exact h
  | updPhase analysisId u s =>
      show (updateAnalysisPhase analysisId u s).analysisHistory.length ≤ 10
      rw [updateAnalysisPhase_history]
      exact h
  | reset s => exact h
  | ws m s => exact handleMessage_history_le m s h
  | poll snap s => exact applyPollSnapshot_history_le snap s h
  | stop ok s =>
      show (handleStopAnalysis ok s).analysisHistory.length ≤ 10
      rw [handleStopAnalysis_history]
      exact h
  | start network now s =>
      show (handleStartAnalysis network now s).state.analysisHistory.length ≤ 10
      rw [handleStartAnalysis_history]
      exact h

/-! ## Claims -/

/-- C3: applying `updateAnalysisPhase` to the tracked analysis with a
matching job id reconciles the phase list by name: the first phase whose name
matches the update is merged in place and the length is unchanged; when no
name matches, the update is appended at the end. Includes the spec's two
concrete instances: `[A, B]` updated with `(A, completed)` yields
`[(A, completed), B]`, and `[A]` updated with `C` yields `[A, C]`. -/
theorem claim_C3_phase_reconciliation (s : AppState) (a : AnalysisResult)
    (analysisId : String) (u : AnalysisPhase)
    (h1 : s.currentAnalysis = some a) (h2 : a.id = analysisId) :
    ((updateAnalysisPhase analysisId u s).currentAnalysis =
        some { a with phases := updatePhases u a.phases }) ∧
    (∀ (l1 : List AnalysisPhase) (p : AnalysisPhase) (l2 : List AnalysisPhase),
        a.phases = l1 ++ p :: l2 →
        (∀ q ∈ l1, q.phase ≠ u.phase) → p.phase = u.phase →
        updatePhases u a.phases = l1 ++ mergePhase p u :: l2 ∧
        (updatePhases u a.phases).length = a.phases.length) ∧
    ((∀ p ∈ a.phases, p.phase ≠ u.phase) →
        updatePhases u a.phases = a.phases ++ [u]) ∧
    (updatePhases (mkPhase (some "A") none (some PhaseStatus.completed))
        [mkPhase (some "A") none none, mkPhase (some "B") none none] =
      [mkPhase (some "A") none (some PhaseStatus.completed),
        mkPhase (some "B") none none]) ∧
    (updatePhases (mkPhase (some "C") none none) [mkPhase (some "A") none none] =
      [mkPhase (some "A") none none, mkPhase (some "C") none none]) := by
  refine ⟨?_, ?_, ?_, ?_, ?_⟩
  · unfold updateAnalysisPhase
    rw [h1]
    dsimp only
    rw [if_pos h2]
  · intro l1 p l2 he hmiss hmatch
    rw [he]
    refine ⟨updatePhases_first_match u l1 p l2 hmiss hmatch, ?_⟩
    rw [updatePhases_first_match u l1 p l2 hmiss hmatch]
    simp
  · exact updatePhases_miss u a.phases
  · decide
  · decide

/-- Witness for C3 at a concrete tracked analysis with phases `[A, B]` and a
matching update `(A, completed)`: the merge preserves the length. -/
theorem claim_C3_phase_reconciliation_witness :
    (updatePhases (mkPhase (some "A") none (some PhaseStatus.completed))
        (sampleJob "J1" AnalysisStatus.running
          [mkPhase (some "A") none none, mkPhase (some "B") none none]).phases).length =
      (sampleJob "J1" AnalysisStatus.running
        [mkPhase (some "A") none none, mkPhase (some "B") none none]).phases.length :=
  ((claim_C3_phase_reconciliation
      (trackingState (sampleJob "J1" AnalysisStatus.running
        [mkPhase (some "A") none none, mkPhase (some "B") none none]))
      (sampleJob "J1" AnalysisStatus.running
        [mkPhase (some "A") none none, mkPhase (some "B") none none])
      "J1" (mkPhase (some "A") none (some PhaseStatus.completed)) rfl rfl).2.1
    [] (mkPhase (some "A") none none) [mkPhase (some "B") none none]
    rfl (by simp) (by decide)).2

/-- C4: a phase-update event whose job id does not match the tracked
analysis (or arriving when no analysis is tracked) leaves the entire store
state unchanged. -/
theorem claim_C4_stale_event_ignored (analysisId : String) (u : AnalysisPhase)
    (s : AppState)
    (h : s.currentAnalysis.map AnalysisResult.id ≠ some analysisId) :
    updateAnalysisPhase analysisId u s = s := by
  unfold updateAnalysisPhase
  rcases hc : s.currentAnalysis with _ | a
  · rfl
  · rw [hc] at h
    have hne : a.id ≠ analysisId := by
      intro he
      exact h (by rw [Option.map_some', he])
    dsimp only
    rw [if_neg hne]

/-- Witness for C4: an event for job id `X` while job `Y` is tracked is a
no-op on the whole state. -/
theorem claim_C4_stale_event_ignored_witness :
    updateAnalysisPhase "X" (mkPhase (some "A") none none)
        (trackingState (sampleJob "Y" AnalysisStatus.running [])) =
      trackingState (sampleJob "Y" AnalysisStatus.running []) :=
  claim_C4_stale_event_ignored "X" (mkPhase (some "A") none none)
    (trackingState (sampleJob "Y" AnalysisStatus.running [])) (by decide)

/-- C8: `addToHistory` puts the new analysis first and keeps only the ten
most recent entries (the new one plus the nine newest old ones, the oldest
being evicted), and consequently every store state reachable from the
initial state has a history of length at most ten. -/
theorem claim_C8_bounded_history :
    (∀ (s : AppState) (a : AnalysisResult),
        (addToHistory a s).analysisHistory = (a :: s.analysisHistory).take 10 ∧
        (addToHistory a s).analysisHistory.head? = some a ∧
        (addToHistory a s).analysisHistory.length ≤ 10) ∧
    (∀ s : AppState, Reachable s → s.analysisHistory.length ≤ 10) := by
  constructor
  · intro s a
    refine ⟨?_, rfl, addToHistory_length_le a s⟩
    simp [addToHistory, List.take_succ_cons]
  · intro s h
    induction h with
    | init => simp [initialState]
    | step _ st ih => exact step_history_le st ih

/-- Witness for C8 at the initial state and one concrete append. -/
theorem claim_C8_bounded_history_witness :
    (addToHistory (sampleJob "J1" AnalysisStatus.completed []) initialState).analysisHistory.head? =
      some (sampleJob "J1" AnalysisStatus.completed []) ∧
    initialState.analysisHistory.length ≤ 10 :=
  ⟨(claim_C8_bounded_history.1 initialState (sampleJob "J1" AnalysisStatus.completed [])).2.1,
    claim_C8_bounded_history.2 initialState Reachable.init⟩

/-- Fixture: a stock selection. -/
def sampleStock : Stock :=
  { symbol := "AAPL", name := "Apple Inc.", price := none, change := none
    changePercent := none, marketCap := none, sector := none }

/-- Fixture: a stock selection whose symbol is the empty string. -/
def emptySymbolStock : Stock :=
  { symbol := "", name := "", price := none, change := none
    changePercent := none, marketCap := none, sector := none }

/-- Fixture: an analysis-type selection. -/
def sampleType : AnalysisType :=
  { id := "buying", name := "Buying", description := "", icon := "" }

/-- Fixture: a state with both selections made, ready to submit. -/
def readyState : AppState :=
  { initialState with
      selectedStock := some sampleStock
      selectedAnalysisType := some sampleType
      selectedWorkflow := "7-agent" }

/-- Fixture: a ready state whose selected stock has an empty symbol. -/
def emptySymbolState : AppState :=
  { initialState with
      selectedStock := some emptySymbolStock
      selectedAnalysisType := some sampleType
      selectedWorkflow := "7-agent" }

/-- Fixture: a duplicate-deliverable completion message for job `J1`. -/
def completeMsgJ1 : WsMessage :=
  WsMessage.analysis_complete "J1" (sampleJob "J1" AnalysisStatus.completed [])

/-- C1 counterexample: with job `J1` tracked in the terminal `completed`
state, a poll snapshot carrying status `running` replaces the job wholesale
and the status leaves the terminal set — the claimed terminal-state
invariant fails on the code. -/
theorem claim_C1_counterexample :
    isTerminal (sampleJob "J1" AnalysisStatus.completed []).status = true ∧
    ((applyPollSnapshot (sampleJob "J1" AnalysisStatus.running [])
        (trackingState (sampleJob "J1" AnalysisStatus.completed []))).currentAnalysis.map
      AnalysisResult.status = some AnalysisStatus.running) ∧
    isTerminal AnalysisStatus.running = false := by
  decide

/-- C1 (amended): phase-update, job-cancelled and error events never change
the tracked Job's status (in particular a terminal status is kept), but
job-complete events and poll snapshots replace the tracked Job with the
incoming snapshot unconditionally, so the status follows the snapshot and
can leave a terminal state. -/
theorem claim_C1_status_mutation (s : AppState) (a : AnalysisResult)
    (h : s.currentAnalysis = some a) :
    (∀ (analysisId : String) (u : AnalysisPhase),
        (updateAnalysisPhase analysisId u s).currentAnalysis.map
          AnalysisResult.status = some a.status) ∧
    (∀ analysisId : String,
        (handleMessage (.analysis_cancelled analysisId) s).currentAnalysis = some a) ∧
    (∀ analysisId detail : String,
        (handleMessage (.error analysisId detail) s).currentAnalysis = some a) ∧
    (∀ (analysisId : String) (data : AnalysisResult),
        (handleMessage (.analysis_complete analysisId data) s).currentAnalysis =
          some data) ∧
    (∀ snap : AnalysisResult,
        (applyPollSnapshot snap s).currentAnalysis = some snap) := by
  refine ⟨?_, ?_, ?_, ?_, ?_⟩
  · intro analysisId u
    exact updateAnalysisPhase_status analysisId u s a h
  · intro analysisId
    exact h
  · intro analysisId detail
    exact h
  · intro analysisId data
    rfl
  · intro snap
    unfold applyPollSnapshot
    split
    · split <;> rfl
    · rfl

/-- Witness for the amended C1 at a concrete terminal state. -/
theorem claim_C1_status_mutation_witness :
    (updateAnalysisPhase "J1" (mkPhase (some "A") none none)
        (trackingState (sampleJob "J1" AnalysisStatus.completed []))).currentAnalysis.map
      AnalysisResult.status = some (sampleJob "J1" AnalysisStatus.completed []).status :=
  (claim_C1_status_mutation
      (trackingState (sampleJob "J1" AnalysisStatus.completed []))
      (sampleJob "J1" AnalysisStatus.completed []) rfl).1 "J1"
    (mkPhase (some "A") none none)

/-- C2 counterexample: delivering the same `analysis_complete` event twice is
not a no-op — the completed job is appended to the history once per delivery,
so the history holds it twice. -/
theorem claim_C2_counterexample :
    handleMessage completeMsgJ1 (handleMessage completeMsgJ1 initialState) ≠
      handleMessage completeMsgJ1 initialState ∧
    (handleMessage completeMsgJ1
        (handleMessage completeMsgJ1 initialState)).analysisHistory.length = 2 ∧
    (handleMessage completeMsgJ1 initialState).analysisHistory.length = 1 := by
  decide

/-- C2 (amended): `analysis_cancelled` and `error` events are idempotent
(they only clear the running and cancelling flags); `analysis_complete` is
idempotent on the tracked Job and the two flags, but every delivery prepends
the snapshot to the history again, so a duplicate delivery duplicates the
history entry. -/
theorem claim_C2_idempotence (s : AppState) :
    (∀ analysisId : String,
        handleMessage (.analysis_cancelled analysisId)
            (handleMessage (.analysis_cancelled analysisId) s) =
          handleMessage (.analysis_cancelled analysisId) s) ∧
    (∀ analysisId detail : String,
        handleMessage (.error analysisId detail)
            (handleMessage (.error analysisId detail) s) =
          handleMessage (.error analysisId detail) s) ∧
    (∀ (analysisId : String) (data : AnalysisResult),
        handleMessage (.analysis_complete analysisId data)
            (handleMessage (.analysis_complete analysisId data) s) =
          { handleMessage (.analysis_complete analysisId data) s with
            analysisHistory :=
              data :: (handleMessage (.analysis_complete analysisId data)
                s).analysisHistory.take 9 }) :=
  ⟨fun _ => rfl, fun _ _ => rfl, fun _ _ => rfl⟩

/-- The expected phase count is always positive (16, 9 or 10). -/
theorem expectedTotalPhases_pos (w : String) : 0 < expectedTotalPhases w := by
  unfold expectedTotalPhases
  split
  · norm_num
  · split <;> norm_num

/-- C5: the progress percentage is exactly
`completedPhaseCount / max(expectedPhaseCount, phase count) * 100` as a
rational; for the workflow with expected count 10 (`7-agent`), four completed
phases give 40% and twelve completed phases give 100% (denominator
`max(10,12) = 12`). -/
theorem claim_C5_progress (w : String) (phases : List AnalysisPhase) :
    (progressPercentage w phases =
      (completedPhases phases : ℚ) /
        ((max (expectedTotalPhases w) phases.length : Nat) : ℚ) * 100) ∧
    expectedTotalPhases "7-agent" = 10 ∧
    progressPercentage "7-agent"
      (List.replicate 4 (mkPhase (some "P") (some "X") (some PhaseStatus.completed))) =
        40 ∧
    progressPercentage "7-agent"
      (List.replicate 12 (mkPhase (some "P") (some "X") (some PhaseStatus.completed))) =
        100 := by
  refine ⟨?_, by decide, ?_, ?_⟩
  · unfold progressPercentage
    rw [if_pos]
    · rfl
    · exact Nat.lt_of_lt_of_le (expectedTotalPhases_pos w) (Nat.le_max_left _ _)
  · have h4 : completedPhases
        (List.replicate 4 (mkPhase (some "P") (some "X") (some PhaseStatus.completed))) =
        4 := by decide
    have ht : totalPhases "7-agent"
        (List.replicate 4 (mkPhase (some "P") (some "X") (some PhaseStatus.completed))) =
        10 := by decide
    unfold progressPercentage
    rw [ht, h4, if_pos (by norm_num)]
    norm_num
  · have h12 : completedPhases
        (List.replicate 12 (mkPhase (some "P") (some "X") (some PhaseStatus.completed))) =
        12 := by decide
    have ht : totalPhases "7-agent"
        (List.replicate 12 (mkPhase (some "P") (some "X") (some PhaseStatus.completed))) =
        12 := by decide
    unfold progressPercentage
    rw [ht, h12, if_pos (by norm_num)]
    norm_num

/-- C6: for a completed analysis, the results view is shown precisely when
the number of completed non-system phases (agent not `System`,
`7-Agent Team` or `13-Agent Team`) reaches the workflow threshold, which is
3 for the lighter `6-agent` and `7-agent` workflows and 5 for the heaviest
`13-agent` workflow. -/
theorem claim_C6_results_gate (a : AnalysisResult) (w : String)
    (h : a.status = AnalysisStatus.completed) :
    (showAnalysisResults a w = true ↔
      expectedAgents w ≤ (agentPhases a.phases).length) ∧
    expectedAgents "6-agent" = 3 ∧
    expectedAgents "7-agent" = 3 ∧
    expectedAgents "13-agent" = 5 := by
  refine ⟨?_, by decide, by decide, by decide⟩
  simp [showAnalysisResults, h]

/-- Witness for C6: a completed job with exactly three completed agent
phases under the `7-agent` workflow. -/
theorem claim_C6_results_gate_witness :
    showAnalysisResults
        (sampleJob "J1" AnalysisStatus.completed
          [mkPhase (some "P1") (some "MarketDataAnalyst") (some PhaseStatus.completed),
            mkPhase (some "P2") (some "RiskManager") (some PhaseStatus.completed),
            mkPhase (some "P3") (some "StrategyDeveloper") (some PhaseStatus.completed),
            mkPhase (some "P4") (some "System") (some PhaseStatus.completed)])
        "7-agent" = true ↔
      expectedAgents "7-agent" ≤
        (agentPhases
          (sampleJob "J1" AnalysisStatus.completed
            [mkPhase (some "P1") (some "MarketDataAnalyst") (some PhaseStatus.completed),
              mkPhase (some "P2") (some "RiskManager") (some PhaseStatus.completed),
              mkPhase (some "P3") (some "StrategyDeveloper") (some PhaseStatus.completed),
              mkPhase (some "P4") (some "System") (some PhaseStatus.completed)]).phases).length :=
  (claim_C6_results_gate
      (sampleJob "J1" AnalysisStatus.completed
        [mkPhase (some "P1") (some "MarketDataAnalyst") (some PhaseStatus.completed),
          mkPhase (some "P2") (some "RiskManager") (some PhaseStatus.completed),
          mkPhase (some "P3") (some "StrategyDeveloper") (some PhaseStatus.completed),
          mkPhase (some "P4") (some "System") (some PhaseStatus.completed)])
      "7-agent" rfl).1

/-- C7 counterexample: the initial snapshot constructed by
`handleStartAnalysis` carries status `running`, not the claimed `pending`. -/
theorem claim_C7_counterexample :
    ((handleStartAnalysis (some "J1") "2024-01-01T00:00:00Z"
        readyState).state.currentAnalysis.map AnalysisResult.status =
      some AnalysisStatus.running) ∧
    some AnalysisStatus.running ≠ some AnalysisStatus.pending := by
  decide

/-- C7 (amended): on a successful submission the published initial snapshot
has status `running` (the code never publishes a `pending` snapshot), an
empty phase sequence, id equal to the backend-assigned job id, and creation
timestamp equal to the local submission time. -/
theorem claim_C7_initial_snapshot (s : AppState) (stock : Stock)
    (atype : AnalysisType) (analysisId now : String)
    (h1 : s.selectedStock = some stock)
    (h2 : s.selectedAnalysisType = some atype) :
    ((handleStartAnalysis (some analysisId) now s).state.currentAnalysis =
      some (mkInitialAnalysis analysisId stock.symbol atype.id
        s.selectedWorkflow now)) ∧
    (mkInitialAnalysis analysisId stock.symbol atype.id
      s.selectedWorkflow now).status = AnalysisStatus.running ∧
    (mkInitialAnalysis analysisId stock.symbol atype.id
      s.selectedWorkflow now).phases = [] ∧
    (mkInitialAnalysis analysisId stock.symbol atype.id
      s.selectedWorkflow now).created_at = now ∧
    (mkInitialAnalysis analysisId stock.symbol atype.id
      s.selectedWorkflow now).id = analysisId := by
  refine ⟨?_, rfl, rfl, rfl, rfl⟩
  unfold handleStartAnalysis
  rw [h1, h2]
  rfl

/-- Witness for the amended C7 at a concrete ready state. -/
theorem claim_C7_initial_snapshot_witness :
    (handleStartAnalysis (some "J1") "2024-01-01T00:00:00Z"
        readyState).state.currentAnalysis =
      some (mkInitialAnalysis "J1" sampleStock.symbol sampleType.id
        readyState.selectedWorkflow "2024-01-01T00:00:00Z") :=
  (claim_C7_initial_snapshot readyState sampleStock sampleType "J1"
    "2024-01-01T00:00:00Z" rfl rfl).1

/-- C9 counterexample: a submission whose selected stock has an empty-string
symbol is not rejected — the network call is issued and a Job is created,
contradicting the claimed `ValidationError`-before-network behaviour for
empty subject keys. -/
theorem claim_C9_counterexample :
    (handleStartAnalysis (some "J1") "2024-01-01T00:00:00Z"
      emptySymbolState).networkCalled = true ∧
    (handleStartAnalysis (some "J1") "2024-01-01T00:00:00Z"
      emptySymbolState).state.currentAnalysis.isSome = true := by
  decide

/-- C9 (amended): the only submission validation is the null check on the
selected stock and analysis type: when either selection is missing, the
submission is rejected silently before any network call — the store state is
returned unchanged (no Job created) and no error value is produced (the code
throws no `ValidationError`; an empty-string subject key passes this check
and the network call proceeds, as the counterexample shows). -/
theorem claim_C9_validation (network : Option String) (now : String)
    (s : AppState)
    (h : s.selectedStock = none ∨ s.selectedAnalysisType = none) :
    handleStartAnalysis network now s =
      { state := s, networkCalled := false } := by
  unfold handleStartAnalysis
  rcases h with h | h
  · rw [h]
  · rw [h]
    cases s.selectedStock <;> rfl

/-- Witness for the amended C9: submitting from the initial state (no stock
selected) is a silent no-op without a network call. -/
theorem claim_C9_validation_witness :
    handleStartAnalysis (some "J1") "2024-01-01T00:00:00Z" initialState =
      { state := initialState, networkCalled := false } :=
  claim_C9_validation (some "J1") "2024-01-01T00:00:00Z" initialState
    (Or.inl rfl)

/-- C10: after a successful cancel request the tracked job is locally marked
`cancelled`; a completion snapshot subsequently delivered on the update
channel replaces the tracked job unconditionally, so the completion wins and
the final status is `completed`. -/
theorem claim_C10_cancel_then_complete (s : AppState) (a snap : AnalysisResult)
    (h1 : s.currentAnalysis = some a) (h2 : a.id ≠ "")
    (h3 : s.isCancelling = false)
    (h4 : snap.status = AnalysisStatus.completed) :
    ((handleStopAnalysis true s).currentAnalysis.map AnalysisResult.status =
      some AnalysisStatus.cancelled) ∧
    ((handleMessage (.analysis_complete a.id snap)
        (handleStopAnalysis true s)).currentAnalysis = some snap) ∧
    ((handleMessage (.analysis_complete a.id snap)
        (handleStopAnalysis true s)).currentAnalysis.map AnalysisResult.status =
      some AnalysisStatus.completed) := by
  have hguard : ¬(a.id = "" ∨ s.isCancelling = true) := by
    rintro (hc | hc)
    · exact h2 hc
    · rw [h3] at hc
      exact Bool.false_ne_true hc
  have hstop : handleStopAnalysis true s =
      setCancelling false (setAnalysisRunning false
        (setCurrentAnalysis (some { a with status := .cancelled })
          (setCancelling true s))) := by
    unfold handleStopAnalysis
    rw [h1]
    dsimp only
    rw [if_neg hguard]
    rfl
  refine ⟨?_, ?_, ?_⟩
  · rw [hstop]
    rfl
  · rfl
  · show some snap.status = some AnalysisStatus.completed
    rw [h4]

/-- Witness for C10 at a concrete running job and a concrete completion
snapshot. -/
theorem claim_C10_cancel_then_complete_witness :
    (handleMessage
        (.analysis_complete (sampleJob "J1" AnalysisStatus.running []).id
          (sampleJob "J1" AnalysisStatus.completed []))
        (handleStopAnalysis true
          (trackingState (sampleJob "J1" AnalysisStatus.running [])))).currentAnalysis =
      some (sampleJob "J1" AnalysisStatus.completed []) :=
  (claim_C10_cancel_then_complete
      (trackingState (sampleJob "J1" AnalysisStatus.running []))
      (sampleJob "J1" AnalysisStatus.running [])
      (sampleJob "J1" AnalysisStatus.completed [])
      rfl (by decide) rfl rfl).2.1
